import Mathlib

/-!
Shallow embedding of the stress-test orchestration engine of
`tests/stress_test.py` (PyPI server stress testing): the burst scheduler,
the request executor's success classification, the per-iteration operation
mix, and the metrics aggregator.  Python ints are modelled as `ℤ`/`ℕ`,
Python floats as `ℚ` (all float literals appearing in the source — 0.95,
0.99, 1.2 — and all profile multipliers are exactly representable, and the
products involved stay far from the discretisation boundaries, so rational
arithmetic agrees with the float arithmetic of the source on every value
considered here), and Python exceptions as `Except`.
-/

/-- Python `int(x)` applied to a float/rational: truncation toward zero. -/
def pyInt (q : ℚ) : ℤ :=
  if q < 0 then -⌊-q⌋ else ⌊q⌋

/-- Python built-in `round` on a rational: nearest integer, ties to even
(banker's rounding).  Modelled from the spec's word "round"; used only to
compare the spec's claimed rounding against the source's truncation. -/
def pyRound (q : ℚ) : ℤ :=
  if q - ⌊q⌋ < 1/2 then ⌊q⌋
  else if q - ⌊q⌋ > 1/2 then ⌊q⌋ + 1
  else if ⌊q⌋ % 2 = 0 then ⌊q⌋ else ⌊q⌋ + 1

/-- Python exceptions that the embedded code can raise. -/
inductive PyError where
  | zeroDivision
  deriving DecidableEq, Repr

/-- Burst determination of `run_stress_test` (stress_test.py line 422):
`is_burst = burst_interval_seconds and iteration % (burst_interval_seconds // 10) == 0`.
`none`/`0` are falsy, so the conjunction short-circuits to not-burst; for a
truthy interval `b`, Python evaluates `iteration % (b // 10)`, which raises
`ZeroDivisionError` when `b // 10 == 0`, i.e. when `b < 10`. -/
def isBurst (burst_interval_seconds : Option ℕ) (iteration : ℕ) :
    Except PyError Bool :=
  match burst_interval_seconds with
  | none => .ok false
  | some b =>
      if b = 0 then .ok false
      else if b / 10 = 0 then .error .zeroDivision
      else .ok (iteration % (b / 10) == 0)

/-- Worker count of `run_stress_test` (stress_test.py lines 425–429):
`int(concurrent_clients * burst_multiplier) if is_burst else concurrent_clients`. -/
def workers (concurrent_clients : ℕ) (burst_multiplier : ℚ) (is_burst : Bool) : ℤ :=
  if is_burst then pyInt (concurrent_clients * burst_multiplier)
  else concurrent_clients

/-- Connection-pool / worker ceiling of `run_stress_test`
(stress_test.py line 391):
`max_workers = int(concurrent_clients * burst_multiplier * 1.2)`. -/
def max_workers (concurrent_clients : ℕ) (burst_multiplier : ℚ) : ℤ :=
  pyInt (concurrent_clients * burst_multiplier * 1.2)

/-- Upload count of one iteration (stress_test.py line 474):
`num_uploads = int(workers * upload_ratio)`. -/
def num_uploads (w : ℕ) (upload_fraction : ℚ) : ℤ :=
  pyInt (w * upload_fraction)

/-- Download count of one iteration (stress_test.py line 475):
`num_downloads = workers - num_uploads`. -/
def num_downloads (w : ℕ) (upload_fraction : ℚ) : ℤ :=
  w - num_uploads w upload_fraction

/-- Number of upload operations actually issued in one iteration
(stress_test.py line 490): the upload batch runs only under
`if num_uploads > 0 and package_paths:`, so nothing is uploaded when the
artifact list is empty or absent. -/
def uploadsIssued (w : ℕ) (upload_fraction : ℚ) (package_paths : List String) : ℤ :=
  if 0 < num_uploads w upload_fraction ∧ package_paths ≠ [] then
    num_uploads w upload_fraction
  else 0

/-- Number of download operations actually issued in one iteration
(stress_test.py line 480): the download batch runs only under
`if num_downloads > 0:`. -/
def downloadsIssued (w : ℕ) (upload_fraction : ℚ) : ℤ :=
  if 0 < num_downloads w upload_fraction then num_downloads w upload_fraction
  else 0

/-- Metrics for a single request, mirroring the dataclass `RequestMetrics`
(stress_test.py lines 30–42).  `status_code = 0` means a connection-level
failure (no HTTP response was received). -/
structure RequestMetrics where
  timestamp : ℚ
  operation : String
  package_name : Option String
  latency_ms : ℚ
  status_code : ℕ
  success : Bool
  error : Option String := none
  error_detail : Option String := none
  url : Option String := none
  deriving DecidableEq, Repr

/-- Outcome of one network call, as seen by the executor's `try` block:
either an HTTP response (status code, reason phrase, body — `none` when
reading the body itself raises) or an exception (type name, message,
formatted traceback). -/
inductive HttpOutcome where
  | response (status_code : ℕ) (reason : String) (body : Option String)
  | exn (ename emsg tb : String)
  deriving DecidableEq, Repr

/-- The request executor `PyPIStressTest._make_request`
(stress_test.py lines 126–191), used by all read operations
(`list_packages`, `get_package`, `download_wheel`, and the redirect probe).
The network call's outcome is an explicit argument; both the response path
and the `except Exception` path return a `RequestMetrics`, so the function
is total: no exception propagates past its boundary. -/
def _make_request (operation : String) (package_name : Option String)
    (url : String) (start latency_ms : ℚ) (outcome : HttpOutcome) :
    RequestMetrics :=
  match outcome with
  | .response status reason body =>
      let ok : Bool := status < 400
      { timestamp := start
        operation := operation
        package_name := package_name
        latency_ms := latency_ms
        status_code := status
        success := ok
        error := if ok then none else some reason
        error_detail :=
          if ok then none
          else some ((body.getD "Could not read response body").take 1000)
        url := some url }
  | .exn ename emsg tb =>
      { timestamp := start
        operation := operation
        package_name := package_name
        latency_ms := latency_ms
        status_code := 0
        success := false
        error := some emsg
        error_detail := some (ename ++ ": " ++ emsg ++ "\n" ++ tb)
        url := some url }

/-- The upload executor `PyPIStressTest.upload_package`
(stress_test.py lines 210–277).  Identical in shape to `_make_request`
except that the success threshold is 500 rather than 400 (a 409 Conflict on
re-upload counts as a successful round-trip) and the operation name and
package stem are fixed by the wheel path. -/
def upload_package (wheel_stem : String) (url : String)
    (start latency_ms : ℚ) (outcome : HttpOutcome) : RequestMetrics :=
  match outcome with
  | .response status reason body =>
      let ok : Bool := status < 500
      { timestamp := start
        operation := "upload_package"
        package_name := some wheel_stem
        latency_ms := latency_ms
        status_code := status
        success := ok
        error := if ok then none else some reason
        error_detail :=
          if ok then none
          else some ((body.getD "Could not read response body").take 1000)
        url := some url }
  | .exn ename emsg tb =>
      { timestamp := start
        operation := "upload_package"
        package_name := some wheel_stem
        latency_ms := latency_ms
        status_code := 0
        success := false
        error := some emsg
        error_detail := some (ename ++ ": " ++ emsg ++ "\n" ++ tb)
        url := some url }

/-- Python `sorted` on a list of rationals (ascending, stable). -/
def pySorted (xs : List ℚ) : List ℚ :=
  List.insertionSort (· ≤ ·) xs

/-- Python `min` over a non-empty list (0 for the never-taken empty case). -/
def listMin : List ℚ → ℚ
  | [] => 0
  | x :: xs => xs.foldl min x

/-- Python `max` over a non-empty list (0 for the never-taken empty case). -/
def listMax : List ℚ → ℚ
  | [] => 0
  | x :: xs => xs.foldl max x

/-- Python `statistics.mean`: sum divided by length. -/
def pyMean (xs : List ℚ) : ℚ :=
  xs.sum / xs.length

/-- Python `statistics.median`: middle element of the sorted list for odd
length, average of the two middle elements for even length. -/
def pyMedian (xs : List ℚ) : ℚ :=
  if (pySorted xs).length % 2 = 1 then
    (pySorted xs).getD ((pySorted xs).length / 2) 0
  else
    ((pySorted xs).getD ((pySorted xs).length / 2 - 1) 0 +
      (pySorted xs).getD ((pySorted xs).length / 2) 0) / 2

/-- Nearest-rank percentile index of `_aggregate_metrics`
(stress_test.py lines 569–570 and 595): `int(n * p)`. -/
def percentileIdx (n : ℕ) (p : ℚ) : ℕ :=
  (pyInt (n * p)).toNat

/-- Successful-request latencies in accumulation order
(stress_test.py line 561). -/
def successfulLatencies (metrics : List RequestMetrics) : List ℚ :=
  (metrics.filter (·.success)).map (·.latency_ms)

/-- Per-operation statistics, mirroring one entry of the `operations`
dictionary built by `_aggregate_metrics` (stress_test.py lines 584–599). -/
structure OpStats where
  count : ℕ
  success_rate : ℚ
  mean_latency_ms : ℚ
  p95_latency_ms : ℚ
  deriving DecidableEq, Repr

/-- Successful latencies of the records of one operation kind
(stress_test.py lines 587–588). -/
def opLatencies (metrics : List RequestMetrics) (op : String) : List ℚ :=
  ((metrics.filter (fun m => m.operation == op)).filter (·.success)).map
    (·.latency_ms)

/-- Per-operation breakdown of `_aggregate_metrics`
(stress_test.py lines 590–599). -/
def opStats (metrics : List RequestMetrics) (op : String) : OpStats :=
  { count := (metrics.filter (fun m => m.operation == op)).length
    success_rate :=
      (((metrics.filter (fun m => m.operation == op)).filter
          (·.success)).length : ℚ) /
        ((metrics.filter (fun m => m.operation == op)).length : ℚ)
    mean_latency_ms :=
      if opLatencies metrics op = [] then 0 else pyMean (opLatencies metrics op)
    p95_latency_ms :=
      if opLatencies metrics op = [] then 0
      else (pySorted (opLatencies metrics op)).getD
        (percentileIdx (opLatencies metrics op).length 0.95) 0 }

/-- Aggregated results, mirroring the dataclass `StressTestResults`
(stress_test.py lines 45–78); the run-identification strings are omitted,
the `operations` dictionary is represented by its lookup function, and
`error_samples` keeps the sampled records themselves. -/
structure StressTestResults where
  duration_seconds : ℚ
  total_requests : ℕ
  successful_requests : ℕ
  failed_requests : ℕ
  error_rate : ℚ
  latency_min : ℚ
  latency_max : ℚ
  latency_mean : ℚ
  latency_median : ℚ
  latency_p95 : ℚ
  latency_p99 : ℚ
  requests_per_second : ℚ
  status_code_counts : ℕ → ℕ
  error_5xx_count : ℕ
  error_4xx_count : ℕ
  operations : String → OpStats
  error_samples : List RequestMetrics

/-- The metrics aggregator `_aggregate_metrics`
(stress_test.py lines 534–638), a pure function of the collected records
and the run duration.  Latency statistics are computed over successful
requests only; with zero successful requests every latency statistic is 0
(lines 571–573); percentiles are nearest-rank at index `int(n * p)` of the
sorted latencies (lines 569–570). -/
def _aggregate_metrics (metrics : List RequestMetrics) (duration : ℚ) :
    StressTestResults :=
  { duration_seconds := duration
    total_requests := metrics.length
    successful_requests := (metrics.filter (·.success)).length
    failed_requests := metrics.length - (metrics.filter (·.success)).length
    error_rate :=
      if 0 < metrics.length then
        ((metrics.length - (metrics.filter (·.success)).length : ℕ) : ℚ) /
          (metrics.length : ℚ)
      else 0
    latency_min :=
      if successfulLatencies metrics = [] then 0
      else listMin (successfulLatencies metrics)
    latency_max :=
      if successfulLatencies metrics = [] then 0
      else listMax (successfulLatencies metrics)
    latency_mean :=
      if successfulLatencies metrics = [] then 0
      else pyMean (successfulLatencies metrics)
    latency_median :=
      if successfulLatencies metrics = [] then 0
      else pyMedian (successfulLatencies metrics)
    latency_p95 :=
      if successfulLatencies metrics = [] then 0
      else (pySorted (successfulLatencies metrics)).getD
        (percentileIdx (pySorted (successfulLatencies metrics)).length 0.95) 0
    latency_p99 :=
      if successfulLatencies metrics = [] then 0
      else (pySorted (successfulLatencies metrics)).getD
        (percentileIdx (pySorted (successfulLatencies metrics)).length 0.99) 0
    requests_per_second :=
      if 0 < duration then (metrics.length : ℚ) / duration else 0
    status_code_counts := fun c =>
      (metrics.filter (fun m => m.status_code == c)).length
    error_5xx_count :=
      (metrics.filter (fun m =>
        decide (500 ≤ m.status_code ∧ m.status_code < 600))).length
    error_4xx_count :=
      (metrics.filter (fun m =>
        decide (400 ≤ m.status_code ∧ m.status_code < 500))).length
    operations := fun op => opStats metrics op
    error_samples := (metrics.filter (fun m => !m.success)).take 20 }

/-- A successful download record with the given latency, as produced by
`_make_request` for a `download_wheel` call answered 200. -/
def mkSuccessMetric (lat : ℚ) : RequestMetrics :=
  _make_request "download_wheel" (some "test-package-000")
    "http://pypi.example/packages/x.whl" 0 lat (.response 200 "OK" none)

/-- Ten successful requests with latencies 10, 20, ..., 100 ms — the
spec's worked percentile example. -/
def exampleMetrics : List RequestMetrics :=
  [mkSuccessMetric 10, mkSuccessMetric 20, mkSuccessMetric 30,
   mkSuccessMetric 40, mkSuccessMetric 50, mkSuccessMetric 60,
   mkSuccessMetric 70, mkSuccessMetric 80, mkSuccessMetric 90,
   mkSuccessMetric 100]

theorem pyInt_of_nonneg {q : ℚ} (h : 0 ≤ q) : pyInt q = ⌊q⌋ := by
  simp [pyInt, not_lt.mpr h]

theorem pyInt_natCast_mul_nonneg (n : ℕ) {q : ℚ} (h : 0 ≤ q) :
    pyInt (n * q) = ⌊(n : ℚ) * q⌋ :=
  pyInt_of_nonneg (mul_nonneg (by positivity) h)

/-- Claim C1: burst determination is a pure function of the iteration index
and the configured interval/cadence.  For a configured interval of at least
one cadence, iteration `i` is a burst iteration iff
`i % (burst_interval / cadence) == 0`; iteration 0 is always a burst
iteration; with cadence 10 and interval 60 exactly the multiples of 6 are
bursts; and with no interval configured no iteration is a burst. -/
theorem burst_determination (b i : ℕ) (hb : 10 ≤ b) :
    isBurst (some b) i = .ok (i % (b / 10) == 0) ∧
    isBurst (some b) 0 = .ok true ∧
    (isBurst (some 60) i = .ok true ↔ i % 6 = 0) ∧
    isBurst none i = .ok false := by
  have hb0 : b ≠ 0 := by omega
  have hbd : b / 10 ≠ 0 := by omega
  refine ⟨by simp [isBurst, hb0, hbd], by simp [isBurst, hb0, hbd], ?_, by simp [isBurst]⟩
  simp [isBurst]

/-- Witness for `burst_determination` at interval 60, iteration 12. -/
theorem burst_determination_witness :
    10 ≤ 60 ∧
    (isBurst (some 60) 12 = .ok (12 % (60 / 10) == 0) ∧
     isBurst (some 60) 0 = .ok true ∧
     (isBurst (some 60) 12 = .ok true ↔ 12 % 6 = 0) ∧
     isBurst none 12 = .ok false) :=
  ⟨by decide, burst_determination 60 12 (by decide)⟩

/-- Claim C10: a configured burst interval strictly between 0 and one
cadence (10 seconds) makes the burst modulus `b // 10` equal to 0, so the
scheduler's burst determination raises `ZeroDivisionError` already at
iteration 0 (indeed at every iteration), while any interval of at least one
cadence makes the determination total. -/
theorem burst_zero_division (b : ℕ) (h1 : 0 < b) (h2 : b < 10) :
    b / 10 = 0 ∧
    isBurst (some b) 0 = .error .zeroDivision ∧
    (∀ i, isBurst (some b) i = .error .zeroDivision) ∧
    (∀ c, 10 ≤ c → ∀ i, ∃ r, isBurst (some c) i = .ok r) := by
  have hb0 : b ≠ 0 := by omega
  have hbd : b / 10 = 0 := by omega
  refine ⟨hbd, by simp [isBurst, hb0, hbd], fun i => by simp [isBurst, hb0, hbd], ?_⟩
  intro c hc i
  have hc0 : c ≠ 0 := by omega
  have hcd : c / 10 ≠ 0 := by omega
  exact ⟨i % (c / 10) == 0, by simp [isBurst, hc0, hcd]⟩

/-- Witness for `burst_zero_division` at interval 5. -/
theorem burst_zero_division_witness :
    0 < 5 ∧ 5 < 10 ∧
    (5 / 10 = 0 ∧
     isBurst (some 5) 0 = .error .zeroDivision ∧
     (∀ i, isBurst (some 5) i = .error .zeroDivision) ∧
     (∀ c, 10 ≤ c → ∀ i, ∃ r, isBurst (some c) i = .ok r)) :=
  ⟨by decide, by decide, burst_zero_division 5 (by decide) (by decide)⟩

/-- Counterexample to claim C2 as stated: on a burst iteration the code
computes `int(concurrent_clients * burst_multiplier)`, which truncates; for
baseline 1 and multiplier 1.5 it yields 1 worker, while rounding as the
claim demands would yield 2. -/
theorem workers_round_counterexample :
    workers 1 (3/2) true ≠ pyRound ((1 : ℕ) * (3/2 : ℚ)) := by
  have h1 : workers 1 (3/2) true = 1 := by
    rw [workers, if_pos rfl, pyInt_natCast_mul_nonneg 1 (by norm_num)]
    norm_num
  have h2 : pyRound ((1 : ℕ) * (3/2 : ℚ)) = 2 := by
    rw [pyRound]
    norm_num
  rw [h1, h2]
  decide

/-- Claim C2, amended: for every scheduler iteration the worker count is
`baseline_workers` when the iteration is not a burst iteration, and the
truncation (not the rounding) `int(baseline_workers * burst_multiplier)` —
i.e. the floor, for a nonnegative multiplier — when it is. -/
theorem workers_truncation (c : ℕ) (m : ℚ) (hm : 0 ≤ m) :
    workers c m false = (c : ℤ) ∧
    workers c m true = ⌊(c : ℚ) * m⌋ ∧
    ((workers c m true : ℚ) ≤ (c : ℚ) * m ∧
      (c : ℚ) * m - 1 < (workers c m true : ℚ)) := by
  have h : workers c m true = ⌊(c : ℚ) * m⌋ := by
    rw [workers, if_pos rfl]
    exact pyInt_natCast_mul_nonneg c hm
  refine ⟨by simp [workers], h, ?_, ?_⟩
  · rw [h]; exact_mod_cast Int.floor_le ((c : ℚ) * m)
  · rw [h]
    have := Int.sub_one_lt_floor ((c : ℚ) * m)
    linarith

/-- Witness for `workers_truncation` at baseline 3 and multiplier 170. -/
theorem workers_truncation_witness :
    (0 : ℚ) ≤ 170 ∧
    (workers 3 170 false = ((3 : ℕ) : ℤ) ∧
     workers 3 170 true = ⌊((3 : ℕ) : ℚ) * 170⌋ ∧
     ((workers 3 170 true : ℚ) ≤ ((3 : ℕ) : ℚ) * 170 ∧
      ((3 : ℕ) : ℚ) * 170 - 1 < (workers 3 170 true : ℚ))) :=
  ⟨by norm_num, workers_truncation 3 170 (by norm_num)⟩

/-- Counterexample to claim C8 as stated: the code computes the upload
count as `int(workers * upload_ratio)`, which truncates; for 3 workers and
ratio 0.5 it yields 1 upload, while rounding as the claim demands would
yield 2. -/
theorem num_uploads_round_counterexample :
    num_uploads 3 (1/2) ≠ pyRound ((3 : ℕ) * (1/2 : ℚ)) := by
  have h1 : num_uploads 3 (1/2) = 1 := by
    rw [num_uploads, pyInt_natCast_mul_nonneg 3 (by norm_num)]
    norm_num
  have h2 : pyRound ((3 : ℕ) * (1/2 : ℚ)) = 2 := by
    rw [pyRound]
    norm_num
  rw [h1, h2]
  decide

/-- Claim C8, amended: for every iteration with worker count `W`, the
operation mix is an upload count of the truncation (not the rounding)
`int(W * upload_ratio)` — the floor, for a nonnegative ratio — with the
remainder `W - num_uploads` as downloads, and no upload operations are
issued when no artifact list is supplied, regardless of the configured
upload ratio. -/
theorem operation_mix (w : ℕ) (f : ℚ) (hf : 0 ≤ f) :
    num_uploads w f = ⌊(w : ℚ) * f⌋ ∧
    num_downloads w f = (w : ℤ) - num_uploads w f ∧
    (∀ g : ℚ, uploadsIssued w g [] = 0) := by
  refine ⟨pyInt_natCast_mul_nonneg w hf, rfl, fun g => ?_⟩
  simp [uploadsIssued]

/-- Witness for `operation_mix` at 3 workers and ratio 0.5. -/
theorem operation_mix_witness :
    (0 : ℚ) ≤ 1/2 ∧
    (num_uploads 3 (1/2) = ⌊((3 : ℕ) : ℚ) * (1/2)⌋ ∧
     num_downloads 3 (1/2) = ((3 : ℕ) : ℤ) - num_uploads 3 (1/2) ∧
     (∀ g : ℚ, uploadsIssued 3 g [] = 0)) :=
  ⟨by norm_num, operation_mix 3 (1/2) (by norm_num)⟩

/-- Counterexample to claim C9 as stated: the ceiling is computed as
`int(concurrent_clients * burst_multiplier * 1.2)`, which truncates; for
baseline 3 and multiplier 1.25 the product is 4.5, so the computed ceiling
4 is strictly below the demanded `baseline * multiplier * 1.2`. -/
theorem max_workers_headroom_counterexample :
    ¬ ((max_workers 3 (5/4) : ℚ) ≥ (3 : ℕ) * (5/4 : ℚ) * 1.2) := by
  have h : max_workers 3 (5/4) = 4 := by
    rw [max_workers, pyInt_of_nonneg (by norm_num)]
    norm_num
  rw [h]
  norm_num

/-- Claim C9, amended: the connection-pool / worker ceiling computed once
at setup is `int(baseline_workers * burst_multiplier * 1.2)`: it is at most
`baseline_workers * burst_multiplier * 1.2` and exceeds that product minus
one, so it provides the 20% headroom exactly whenever the product is an
integer; in particular for baseline 3 and multiplier 170 the ceiling is 612,
which is at least `3 * 170 * 1.2 = 612`. -/
theorem max_workers_headroom (c : ℕ) (m : ℚ) (hm : 0 ≤ m) :
    max_workers c m = ⌊(c : ℚ) * m * 1.2⌋ ∧
    (max_workers c m : ℚ) ≤ (c : ℚ) * m * 1.2 ∧
    (c : ℚ) * m * 1.2 - 1 < (max_workers c m : ℚ) ∧
    max_workers 3 170 = 612 ∧ ((612 : ℚ) ≥ (3 : ℚ) * 170 * 1.2) := by
  have h : max_workers c m = ⌊(c : ℚ) * m * 1.2⌋ := by
    rw [max_workers, pyInt_of_nonneg]
    have : (0 : ℚ) ≤ (c : ℚ) * m := mul_nonneg (by positivity) hm
    nlinarith
  refine ⟨h, ?_, ?_, ?_, by norm_num⟩
  · rw [h]; exact_mod_cast Int.floor_le ((c : ℚ) * m * 1.2)
  · rw [h]
    have := Int.sub_one_lt_floor ((c : ℚ) * m * 1.2)
    linarith
  · rw [max_workers, pyInt_of_nonneg (by norm_num)]
    norm_num

/-- Witness for `max_workers_headroom` at baseline 3 and multiplier 170. -/
theorem max_workers_headroom_witness :
    (0 : ℚ) ≤ 170 ∧
    (max_workers 3 170 = ⌊((3 : ℕ) : ℚ) * 170 * 1.2⌋ ∧
     (max_workers 3 170 : ℚ) ≤ ((3 : ℕ) : ℚ) * 170 * 1.2 ∧
     ((3 : ℕ) : ℚ) * 170 * 1.2 - 1 < (max_workers 3 170 : ℚ) ∧
     max_workers 3 170 = 612 ∧ ((612 : ℚ) ≥ (3 : ℚ) * 170 * 1.2)) :=
  ⟨by norm_num, max_workers_headroom 3 170 (by norm_num)⟩

/-- Claim C4: the success threshold is operation-dependent.  A read
operation answered with status ≥ 400 has `success = false` and one
answered below 400 has `success = true`; an upload answered with status
≥ 500 has `success = false` and one answered below 500 has
`success = true`; in particular an upload answered 409 succeeds and one
answered 503 fails. -/
theorem success_thresholds (op : String) (pkg : Option String)
    (url stem : String) (t lat : ℚ) (s : ℕ) (reason : String)
    (body : Option String) :
    (400 ≤ s →
      (_make_request op pkg url t lat (.response s reason body)).success = false) ∧
    (s < 400 →
      (_make_request op pkg url t lat (.response s reason body)).success = true) ∧
    (500 ≤ s →
      (upload_package stem url t lat (.response s reason body)).success = false) ∧
    (s < 500 →
      (upload_package stem url t lat (.response s reason body)).success = true) ∧
    (upload_package stem url t lat (.response 409 reason body)).success = true ∧
    (upload_package stem url t lat (.response 503 reason body)).success = false := by
  refine ⟨fun h => ?_, fun h => ?_, fun h => ?_, fun h => ?_, ?_, ?_⟩ <;>
    simp [_make_request, upload_package] <;> omega

/-- Witness for `success_thresholds`: a 404 download fails, a 200 download
succeeds, a 409 upload succeeds, a 503 upload fails. -/
theorem success_thresholds_witness :
    (_make_request "download_wheel" none "u" 0 0
      (.response 404 "Not Found" none)).success = false ∧
    (_make_request "download_wheel" none "u" 0 0
      (.response 200 "OK" none)).success = true ∧
    (upload_package "pkg" "u" 0 0 (.response 409 "Conflict" none)).success = true ∧
    (upload_package "pkg" "u" 0 0 (.response 503 "Unavailable" none)).success = false :=
  ⟨(success_thresholds "download_wheel" none "u" "pkg" 0 0 404 "Not Found" none).1
      (by norm_num),
   (success_thresholds "download_wheel" none "u" "pkg" 0 0 200 "OK" none).2.1
      (by norm_num),
   (success_thresholds "download_wheel" none "u" "pkg" 0 0 409 "Conflict" none).2.2.2.2.1,
   (success_thresholds "download_wheel" none "u" "pkg" 0 0 503 "Unavailable" none).2.2.2.2.2⟩

/-- Claim C5: the request executor always returns a metric record; an
exception during the network call is captured as a record with
`success = false`, `status_code = 0`, and populated `error` and
`error_detail` fields, for read operations and uploads alike. -/
theorem executor_captures_exceptions (op : String) (pkg : Option String)
    (url stem : String) (t lat : ℚ) (ename emsg tb : String) :
    (_make_request op pkg url t lat (.exn ename emsg tb)).success = false ∧
    (_make_request op pkg url t lat (.exn ename emsg tb)).status_code = 0 ∧
    (_make_request op pkg url t lat (.exn ename emsg tb)).error = some emsg ∧
    ((_make_request op pkg url t lat (.exn ename emsg tb)).error_detail).isSome = true ∧
    (upload_package stem url t lat (.exn ename emsg tb)).success = false ∧
    (upload_package stem url t lat (.exn ename emsg tb)).status_code = 0 ∧
    (upload_package stem url t lat (.exn ename emsg tb)).error = some emsg ∧
    ((upload_package stem url t lat (.exn ename emsg tb)).error_detail).isSome = true := by
  simp [_make_request, upload_package]

/-- Claim C6: every metric record produced by the request executor
satisfies `success = (status_code ≠ 0 ∧ status_code < threshold)` with
threshold 400 for read operations and 500 for uploads, given that a
received HTTP response carries a nonzero status code (a zero status code
arises only from the connection-failure path). -/
theorem success_invariant (op : String) (pkg : Option String)
    (url stem : String) (t lat : ℚ) (outcome : HttpOutcome)
    (hr : ∀ s reason body, outcome = .response s reason body → s ≠ 0) :
    ((_make_request op pkg url t lat outcome).success = true ↔
      ((_make_request op pkg url t lat outcome).status_code ≠ 0 ∧
       (_make_request op pkg url t lat outcome).status_code < 400)) ∧
    ((upload_package stem url t lat outcome).success = true ↔
      ((upload_package stem url t lat outcome).status_code ≠ 0 ∧
       (upload_package stem url t lat outcome).status_code < 500)) := by
  cases outcome with
  | response s reason body =>
      have hs : s ≠ 0 := hr s reason body rfl
      constructor <;> simp [_make_request, upload_package, hs]
  | exn ename emsg tb =>
      simp [_make_request, upload_package]

/-- Witness for `success_invariant` at a 200 response and at a connection
failure. -/
theorem success_invariant_witness :
    (((_make_request "list_packages" none "u" 0 0
        (.response 200 "OK" none)).success = true ↔
      ((_make_request "list_packages" none "u" 0 0
          (.response 200 "OK" none)).status_code ≠ 0 ∧
       (_make_request "list_packages" none "u" 0 0
          (.response 200 "OK" none)).status_code < 400)) ∧
     ((upload_package "pkg" "u" 0 0 (.response 200 "OK" none)).success = true ↔
      ((upload_package "pkg" "u" 0 0 (.response 200 "OK" none)).status_code ≠ 0 ∧
       (upload_package "pkg" "u" 0 0 (.response 200 "OK" none)).status_code < 500))) ∧
    (((_make_request "list_packages" none "u" 0 0
        (.exn "ConnectTimeout" "timed out" "tb")).success = true ↔
      ((_make_request "list_packages" none "u" 0 0
          (.exn "ConnectTimeout" "timed out" "tb")).status_code ≠ 0 ∧
       (_make_request "list_packages" none "u" 0 0
          (.exn "ConnectTimeout" "timed out" "tb")).status_code < 400)) ∧
     ((upload_package "pkg" "u" 0 0
        (.exn "ConnectTimeout" "timed out" "tb")).success = true ↔
      ((upload_package "pkg" "u" 0 0
          (.exn "ConnectTimeout" "timed out" "tb")).status_code ≠ 0 ∧
       (upload_package "pkg" "u" 0 0
          (.exn "ConnectTimeout" "timed out" "tb")).status_code < 500))) :=
  ⟨success_invariant "list_packages" none "u" "pkg" 0 0 (.response 200 "OK" none)
      (fun s reason body h => by injection h with h1 h2 h3; omega),
   success_invariant "list_packages" none "u" "pkg" 0 0
      (.exn "ConnectTimeout" "timed out" "tb")
      (fun s reason body h => by exact absurd h (by simp))⟩

/-- Claim C7: for every metric record list, the aggregated result satisfies
`total_requests = successful_requests + failed_requests`, and `error_rate`
is `failed_requests / total_requests` when `total_requests > 0` and 0 when
`total_requests = 0`. -/
theorem totals_and_error_rate (metrics : List RequestMetrics) (d : ℚ) :
    (_aggregate_metrics metrics d).total_requests =
      (_aggregate_metrics metrics d).successful_requests +
        (_aggregate_metrics metrics d).failed_requests ∧
    (0 < (_aggregate_metrics metrics d).total_requests →
      (_aggregate_metrics metrics d).error_rate =
        ((_aggregate_metrics metrics d).failed_requests : ℚ) /
          ((_aggregate_metrics metrics d).total_requests : ℚ)) ∧
    ((_aggregate_metrics metrics d).total_requests = 0 →
      (_aggregate_metrics metrics d).error_rate = 0) := by
  have hle : (metrics.filter (·.success)).length ≤ metrics.length :=
    List.length_filter_le _ _
  refine ⟨?_, fun h => ?_, fun h => ?_⟩
  · simp only [_aggregate_metrics]
    omega
  · simp only [_aggregate_metrics] at h ⊢
    rw [if_pos h]
  · simp only [_aggregate_metrics] at h ⊢
    rw [if_neg (by omega)]

/-- Witness for `totals_and_error_rate` on the ten-record example list. -/
theorem totals_and_error_rate_witness :
    0 < (_aggregate_metrics exampleMetrics 1).total_requests ∧
    (_aggregate_metrics exampleMetrics 1).error_rate =
      ((_aggregate_metrics exampleMetrics 1).failed_requests : ℚ) /
        ((_aggregate_metrics exampleMetrics 1).total_requests : ℚ) :=
  ⟨by decide, (totals_and_error_rate exampleMetrics 1).2.1 (by decide)⟩

theorem percentileIdx_eq (n : ℕ) {p : ℚ} (hp : 0 ≤ p) :
    percentileIdx n p = (⌊(n : ℚ) * p⌋).toNat := by
  rw [percentileIdx, pyInt_natCast_mul_nonneg n hp]

theorem floor_mul_lt (n : ℕ) (hn : n ≠ 0) {p : ℚ} (hp1 : p < 1) :
    (⌊(n : ℚ) * p⌋).toNat < n := by
  have hn' : (0 : ℚ) < (n : ℚ) := by
    exact_mod_cast Nat.pos_of_ne_zero hn
  have hlt : ⌊(n : ℚ) * p⌋ < (n : ℤ) := by
    rw [Int.floor_lt]
    push_cast
    nlinarith
  omega

theorem pySorted_eq_self {xs : List ℚ} (hs : List.Sorted (· ≤ ·) xs) :
    pySorted xs = xs :=
  hs.insertionSort_eq

/-- Claim C3: over a non-empty sorted sequence of successful-request
latencies, the aggregator's p95 and p99 (overall, and p95 per operation)
are the element at index `floor(p * n)` — nearest-rank, no interpolation —
and that index is always in range; for the ten latencies 10, 20, ..., 100
the p95 is the tenth value, 100; and with zero successful requests every
latency statistic is 0 (no error is raised: the aggregator is total). -/
theorem percentile_nearest_rank (metrics : List RequestMetrics) (d : ℚ)
    (op : String)
    (hs : List.Sorted (· ≤ ·) (successfulLatencies metrics))
    (hne : successfulLatencies metrics ≠ [])
    (hos : List.Sorted (· ≤ ·) (opLatencies metrics op)) :
    ((_aggregate_metrics metrics d).latency_p95 =
      (successfulLatencies metrics).getD
        ((⌊((successfulLatencies metrics).length : ℚ) * 0.95⌋).toNat) 0) ∧
    ((_aggregate_metrics metrics d).latency_p99 =
      (successfulLatencies metrics).getD
        ((⌊((successfulLatencies metrics).length : ℚ) * 0.99⌋).toNat) 0) ∧
    ((⌊((successfulLatencies metrics).length : ℚ) * 0.95⌋).toNat <
      (successfulLatencies metrics).length) ∧
    ((⌊((successfulLatencies metrics).length : ℚ) * 0.99⌋).toNat <
      (successfulLatencies metrics).length) ∧
    (opLatencies metrics op ≠ [] →
      (opStats metrics op).p95_latency_ms =
        (opLatencies metrics op).getD
          ((⌊((opLatencies metrics op).length : ℚ) * 0.95⌋).toNat) 0) ∧
    (_aggregate_metrics exampleMetrics 1).latency_p95 = 100 ∧
    (∀ ms : List RequestMetrics, ∀ d2 : ℚ, successfulLatencies ms = [] →
      (_aggregate_metrics ms d2).latency_min = 0 ∧
      (_aggregate_metrics ms d2).latency_max = 0 ∧
      (_aggregate_metrics ms d2).latency_mean = 0 ∧
      (_aggregate_metrics ms d2).latency_median = 0 ∧
      (_aggregate_metrics ms d2).latency_p95 = 0 ∧
      (_aggregate_metrics ms d2).latency_p99 = 0) := by
  have hsed : pySorted (successfulLatencies metrics) = successfulLatencies metrics :=
    pySorted_eq_self hs
  have hnlen : (successfulLatencies metrics).length ≠ 0 := by
    simpa using hne
  refine ⟨?_, ?_, ?_, ?_, ?_, ?_, ?_⟩
  · simp only [_aggregate_metrics]
    rw [if_neg hne, hsed, percentileIdx_eq _ (by norm_num)]
  · simp only [_aggregate_metrics]
    rw [if_neg hne, hsed, percentileIdx_eq _ (by norm_num)]
  · exact floor_mul_lt _ hnlen (by norm_num)
  · exact floor_mul_lt _ hnlen (by norm_num)
  · intro hone
    simp only [opStats]
    rw [if_neg hone, pySorted_eq_self hos, percentileIdx_eq _ (by norm_num)]
  · have hxs : successfulLatencies exampleMetrics =
        [10, 20, 30, 40, 50, 60, 70, 80, 90, 100] := by decide
    have h95 : percentileIdx 10 0.95 = 9 := by
      rw [percentileIdx_eq 10 (by norm_num)]
      norm_num
      rfl
    have hsort : pySorted [10, 20, 30, 40, 50, 60, 70, 80, 90, 100] =
        ([10, 20, 30, 40, 50, 60, 70, 80, 90, 100] : List ℚ) :=
      pySorted_eq_self (by decide)
    simp only [_aggregate_metrics]
    rw [if_neg (by rw [hxs]; simp), hxs, hsort]
    have hlen : ([10, 20, 30, 40, 50, 60, 70, 80, 90, 100] : List ℚ).length = 10 :=
      rfl
    rw [hlen, h95]
    rfl
  · intro ms d2 h
    simp [_aggregate_metrics, h]

/-- Witness for `percentile_nearest_rank` on the ten-record example list. -/
theorem percentile_nearest_rank_witness :
    (_aggregate_metrics exampleMetrics 1).latency_p95 =
      (successfulLatencies exampleMetrics).getD
        ((⌊((successfulLatencies exampleMetrics).length : ℚ) * 0.95⌋).toNat) 0 :=
  (percentile_nearest_rank exampleMetrics 1 "download_wheel" (by decide)
      (by decide) (by decide)).1
